import Mathlib

/-!
Shallow embedding of the animator-controller core
(parameters, sampling states, blend trees, layers, controller)
with machine floats modelled as exact rationals and the external
ozz jobs modelled by their observable run outcomes.
-/

namespace AnimatorModel

/-- Machine epsilon of f32, used by the code's float comparisons. -/
def f32Epsilon : ℚ := 1 / 8388608

/-- Errors surfaced by the underlying ozz animation jobs. -/
inductive OzzError where
  | samplingFailed
  | blendFailed
  deriving DecidableEq

/-- Outcome of a controller update: normal return, returned error, or a
Rust panic (index out of bounds, explicit panic macro). -/
inductive RunResult where
  | ok
  | error (e : OzzError)
  | panicked (msg : String)
  deriving DecidableEq

/-- Association-list model of HashMap: first binding for a key wins. -/
def lookup {α : Type} (m : List (String × α)) (k : String) : Option α :=
  match m with
  | [] => none
  | kv :: rest => if kv.1 = k then some kv.2 else lookup rest k

/-- HashMap::contains_key. -/
def containsKey {α : Type} (m : List (String × α)) (k : String) : Bool :=
  (lookup m k).isSome

/-- Replace the value stored under a key (in-place mutation of a map entry). -/
def updateKV {α : Type} (m : List (String × α)) (k : String) (v : α) :
    List (String × α) :=
  match m with
  | [] => []
  | kv :: rest => (if kv.1 = k then (kv.1, v) else kv) :: updateKV rest k v

/-- HashMap::insert: overwrite if present, append otherwise. -/
def insertKV {α : Type} (m : List (String × α)) (k : String) (v : α) :
    List (String × α) :=
  if containsKey m k then updateKV m k v else m ++ [(k, v)]

/-- Parameter storage for the animator (parameters.rs). -/
structure Parameters where
  bools : List (String × Bool)
  floats : List (String × ℚ)
  ints : List (String × Int)
  triggers : List (String × Bool)
  deriving DecidableEq

def Parameters.new : Parameters := ⟨[], [], [], []⟩

def Parameters.get_bool (p : Parameters) (n : String) : Option Bool :=
  lookup p.bools n

def Parameters.get_float (p : Parameters) (n : String) : Option ℚ :=
  lookup p.floats n

def Parameters.get_int (p : Parameters) (n : String) : Option Int :=
  lookup p.ints n

def Parameters.get_trigger (p : Parameters) (n : String) : Bool :=
  (lookup p.triggers n).getD false

def Parameters.set_bool (p : Parameters) (n : String) (v : Bool) : Parameters :=
  { p with bools := insertKV p.bools n v }

def Parameters.set_float (p : Parameters) (n : String) (v : ℚ) : Parameters :=
  { p with floats := insertKV p.floats n v }

def Parameters.set_int (p : Parameters) (n : String) (v : Int) : Parameters :=
  { p with ints := insertKV p.ints n v }

def Parameters.set_trigger (p : Parameters) (n : String) : Parameters :=
  { p with triggers := insertKV p.triggers n true }

def Parameters.reset_triggers (p : Parameters) : Parameters :=
  { p with triggers := [] }

/-- Bevy Time as seen by the core: delta and elapsed seconds. -/
structure Time where
  delta_secs : ℚ
  elapsed_secs : ℚ
  deriving DecidableEq

/-- Rust's f32 `%` operator: remainder truncated toward zero. -/
def rustRem (a b : ℚ) : ℚ :=
  a - b * (if 0 ≤ a / b then ((⌊a / b⌋ : ℤ) : ℚ) else ((⌈a / b⌉ : ℤ) : ℚ))

/-- Opaque animation clip: only its duration is observable to the core. -/
structure Animation where
  duration : ℚ
  deriving DecidableEq

/-- SimpleState (state.rs): sampling job modelled by the clip bound to it,
the last ratio written with set_ratio, and the outcome its run() yields. -/
structure SimpleState where
  animation : Option Animation
  ratio_value : ℚ
  runError : Option OzzError
  outputId : Nat
  deriving DecidableEq

/-- SimpleState::update: set the sampling ratio from elapsed time and the
clip duration, then run the sampling job. -/
def SimpleState.update (s : SimpleState) (time : Time) :
    SimpleState × Option OzzError :=
  match s.animation with
  | none => (s, none)
  | some animation =>
      let d := animation.duration
      let s2 : SimpleState := { s with ratio_value := rustRem time.elapsed_secs d / d }
      (s2, s2.runError)

def SimpleState.get_output_pointer (s : SimpleState) : Nat := s.outputId

/-- BlendTreeType (blend_tree.rs). -/
inductive BlendTreeType where
  | simple1D (name : String)
  | directional2D (x y : String)
  deriving DecidableEq

/-- MotionThreshold (blend_tree.rs). -/
inductive MotionThreshold where
  | simple1D (t : ℚ)
  | directional2D (x y : ℚ)
  deriving DecidableEq

/-- MotionData (blend_tree.rs). The child BlendMotionState (a SimpleState or
a nested BlendState behind a lock) is represented by the outcome its update
call returns; the tree-level weight logic never inspects anything else. -/
structure MotionData where
  threshold : MotionThreshold
  childUpdateError : Option OzzError
  deriving DecidableEq

/-- One pass of the interval-search loop in calculate_weights_1d, at index i. -/
def weights1dStep (ms : List MotionData) (v : ℚ) (ws : List ℚ) (i : Nat) :
    List ℚ :=
  match ms[i]?, ms[i + 1]? with
  | some mi, some mj =>
    match mi.threshold, mj.threshold with
    | MotionThreshold.simple1D ti, MotionThreshold.simple1D tj =>
        if ti ≤ v ∧ v ≤ tj then
          let t := (v - ti) / (tj - ti)
          let w := 1 - t
          let w0 := if |w| < f32Epsilon then 0 else w
          (ws.set i w0).set (i + 1) t
        else ws.set i 0
    | _, _ => ws
  | _, _ => ws

/-- BlendTree::calculate_weights_1d, acting on the blend-job weight list. -/
def calculate_weights_1d (ms : List MotionData) (ws : List ℚ) (v : ℚ) :
    List ℚ :=
  if ms.isEmpty then ws
  else if ms.length = 1 then ws.set 0 1
  else
    let ws1 := (List.range (ms.length - 1)).foldl (weights1dStep ms v) ws
    match ms[0]? with
    | none => ws1
    | some m0 =>
      match m0.threshold with
      | MotionThreshold.simple1D t0 =>
          if v ≤ t0 then ws1.set 0 1 else ws1
      | _ =>
        match ms.getLast? with
        | some lastMotion =>
          match lastMotion.threshold with
          | MotionThreshold.simple1D tl =>
              if tl ≤ v then
                if ws1.isEmpty then ws1 else ws1.set (ws1.length - 1) 1
              else ws1
          | _ => ws1
        | none => ws1

/-- Reset every blend weight to zero. -/
def resetWeights (ws : List ℚ) : List ℚ := ws.map (fun _ => 0)

/-- Triangle search of calculate_weights_2d: first (i, j, k) with i < j < k
whose barycentric coordinates of the point are all nonnegative. -/
def baryFind (positions : List (ℚ × ℚ)) (px py : ℚ) :
    Option (Nat × Nat × Nat × ℚ × ℚ × ℚ) :=
  let n := positions.length
  (List.range n).findSome? (fun i =>
    ((List.range n).drop (i + 1)).findSome? (fun j =>
      ((List.range n).drop (j + 1)).findSome? (fun k =>
        match positions[i]?, positions[j]?, positions[k]? with
        | some p1, some p2, some p3 =>
            let denom := (p2.2 - p3.2) * (p1.1 - p3.1) +
              (p3.1 - p2.1) * (p1.2 - p3.2)
            if |denom| < f32Epsilon then none
            else
              let w1 := ((p2.2 - p3.2) * (px - p3.1) +
                (p3.1 - p2.1) * (py - p3.2)) / denom
              let w2 := ((p3.2 - p1.2) * (px - p3.1) +
                (p1.1 - p3.1) * (py - p3.2)) / denom
              let w3 := 1 - w1 - w2
              if 0 ≤ w1 ∧ 0 ≤ w2 ∧ 0 ≤ w3 then some (i, j, k, w1, w2, w3)
              else none
        | _, _, _ => none)))

/-- Nearest-motion fallback of calculate_weights_2d. Distances are compared
through their squares (the square root is monotone); the initial f32::MAX
bound is modelled by letting the first candidate always win. -/
def nearestIdx (positions : List (ℚ × ℚ)) (px py : ℚ) : Nat :=
  (positions.enum.foldl
    (fun acc ip =>
      let d := (px - ip.2.1) ^ 2 + (py - ip.2.2) ^ 2
      match acc.2 with
      | none => (ip.1, some d)
      | some m => if d < m then (ip.1, some d) else acc)
    ((0 : Nat), (none : Option ℚ))).1

/-- BlendTree::calculate_weights_2d. -/
def calculate_weights_2d (ms : List MotionData) (ws : List ℚ) (px py : ℚ) :
    List ℚ :=
  let ws0 := resetWeights ws
  if ms.length < 3 then
    if ws0.isEmpty then ws0 else ws0.set 0 1
  else
    let positions := ms.filterMap (fun m =>
      match m.threshold with
      | MotionThreshold.directional2D x y => some (x, y)
      | _ => none)
    match baryFind positions px py with
    | some (i, j, k, w1, w2, w3) => ((ws0.set i w1).set j w2).set k w3
    | none => ws0.set (nearestIdx positions px py) 1

/-- Child-update loop of BlendTree::update: children whose weight is exactly
zero are skipped; the first error of an updated child propagates. -/
def firstActiveError : List MotionData → List ℚ → Option OzzError
  | [], _ => none
  | _ :: _, [] => none
  | m :: ms, w :: ws =>
    if w = 0 then firstActiveError ms ws
    else
      match m.childUpdateError with
      | some e => some e
      | none => firstActiveError ms ws

/-- BlendTree (blend_tree.rs): weights mirror blend_job.layers, runError is
the outcome of blend_job.run(), outputId identifies the output buffer. -/
structure BlendTree where
  blend_type : BlendTreeType
  motions : List MotionData
  weights : List ℚ
  runError : Option OzzError
  outputId : Nat
  deriving DecidableEq

/-- BlendTree::update: recompute weights from the blend parameters (skipped
when a parameter is absent), update active children, run the blend job. -/
def BlendTree.update (bt : BlendTree) (_time : Time) (p : Parameters) :
    BlendTree × Option OzzError :=
  let ws :=
    match bt.blend_type with
    | BlendTreeType.simple1D paramName =>
        match p.get_float paramName with
        | some v => calculate_weights_1d bt.motions bt.weights v
        | none => bt.weights
    | BlendTreeType.directional2D xp yp =>
        match p.get_float xp, p.get_float yp with
        | some x, some y => calculate_weights_2d bt.motions bt.weights x y
        | _, _ => bt.weights
  let bt2 := { bt with weights := ws }
  match firstActiveError bt2.motions ws with
  | some e => (bt2, some e)
  | none =>
    match bt2.runError with
    | some e => (bt2, some e)
    | none => (bt2, none)

def BlendTree.get_output_pointer (bt : BlendTree) : Nat := bt.outputId

/-- BlendState (state.rs): wraps a blend tree. -/
structure BlendState where
  blend_tree : BlendTree
  duration : ℚ
  deriving DecidableEq

def BlendState.update (b : BlendState) (time : Time) (p : Parameters) :
    BlendState × Option OzzError :=
  let r := b.blend_tree.update time p
  ({ b with blend_tree := r.1 }, r.2)

def BlendState.get_output_pointer (b : BlendState) : Nat :=
  b.blend_tree.get_output_pointer

/-- AnimationState (state.rs): tagged union over the two state kinds. -/
inductive AnimationState where
  | simple (s : SimpleState)
  | blend (b : BlendState)
  deriving DecidableEq

/-- Dispatch of the layer's per-state update match. -/
def AnimationState.update (st : AnimationState) (time : Time) (p : Parameters) :
    AnimationState × Option OzzError :=
  match st with
  | AnimationState.simple s =>
      let r := s.update time
      (AnimationState.simple r.1, r.2)
  | AnimationState.blend b =>
      let r := b.update time p
      (AnimationState.blend r.1, r.2)

def AnimationState.get_output_pointer : AnimationState → Nat
  | AnimationState.simple s => s.get_output_pointer
  | AnimationState.blend b => b.get_output_pointer

/-- CompareType (layer.rs). -/
inductive CompareType where
  | greater
  | less
  | equals
  | notEqual
  deriving DecidableEq

/-- TransitionCondition (layer.rs). -/
inductive TransitionCondition where
  | bool (name : String) (value : Bool)
  | float (name : String) (value : ℚ) (compare : CompareType)
  | int (name : String) (value : Int) (compare : CompareType)
  | trigger (name : String)
  deriving DecidableEq

/-- Transition (layer.rs). -/
structure Transition where
  to_state : String
  duration : ℚ
  conditions : List TransitionCondition
  has_exit_time : Bool
  exit_time : ℚ
  deriving DecidableEq

/-- AnimationLayer::evaluate_condition. -/
def evaluate_condition (condition : TransitionCondition) (p : Parameters) :
    Bool :=
  match condition with
  | TransitionCondition.bool name value =>
      decide (p.get_bool name = some value)
  | TransitionCondition.float name value compare =>
      match p.get_float name with
      | some v =>
          match compare with
          | CompareType.greater => decide (value < v)
          | CompareType.less => decide (v < value)
          | CompareType.equals => decide (|v - value| < f32Epsilon)
          | CompareType.notEqual => decide (f32Epsilon ≤ |v - value|)
      | none => false
  | TransitionCondition.int name value compare =>
      match p.get_int name with
      | some v =>
          match compare with
          | CompareType.greater => decide (value < v)
          | CompareType.less => decide (v < value)
          | CompareType.equals => decide (v = value)
          | CompareType.notEqual => decide (v ≠ value)
      | none => false
  | TransitionCondition.trigger name => p.get_trigger name

/-- AnimationLayer::evaluate_transition: the exit-time block of the source
is an empty TODO, so only the AND over the conditions remains. -/
def evaluate_transition (t : Transition) (p : Parameters) : Bool :=
  t.conditions.all (fun c => evaluate_condition c p)

/-- LayerBlendType (layer.rs). -/
inductive LayerBlendType where
  | override
  | additive
  deriving DecidableEq

/-- AnimationLayer (layer.rs). blendRunError is the outcome of the layer's
cross-fade blending job run; outputId identifies blend_job_output. -/
structure AnimationLayer where
  name : String
  layer_blend_type : LayerBlendType
  layer_weight : ℚ
  default_state_name : String
  states : List (String × AnimationState)
  transitions : List (String × List Transition)
  current_state : String
  next_state : Option String
  transition_time : ℚ
  transition_duration : ℚ
  is_transitioning : Bool
  blendRunError : Option OzzError
  outputId : Nat
  output_source_changed : Bool
  deriving DecidableEq

/-- AnimationLayer::new: starts in the default state with
output_source_changed set to force a rebind on the first frame. -/
def AnimationLayer.new (name : String) (layer_blend_type : LayerBlendType)
    (layer_weight : ℚ) (outputId : Nat) (default_state_name : String) :
    AnimationLayer :=
  { name := name
    layer_blend_type := layer_blend_type
    layer_weight := layer_weight
    default_state_name := default_state_name
    states := []
    transitions := []
    current_state := default_state_name
    next_state := none
    transition_time := 0
    transition_duration := 0
    is_transitioning := false
    blendRunError := none
    outputId := outputId
    output_source_changed := true }

def AnimationLayer.add_state (l : AnimationLayer) (name : String)
    (state : AnimationState) : AnimationLayer :=
  { l with states := insertKV l.states name state }

def AnimationLayer.add_transition (l : AnimationLayer) (from_state : String)
    (t : Transition) : AnimationLayer :=
  { l with transitions :=
      match lookup l.transitions from_state with
      | some ts => updateKV l.transitions from_state (ts ++ [t])
      | none => l.transitions ++ [(from_state, [t])] }

/-- The layer fields written when a transition starts. -/
def startTransition (l : AnimationLayer) (t : Transition) : AnimationLayer :=
  { l with next_state := some t.to_state
           transition_time := 0
           transition_duration := t.duration
           is_transitioning := true }

/-- Body of the for-loop in AnimationLayer::check_transitions: the first
transition whose conditions hold is inspected; if its target state is
missing the whole walk returns false, otherwise the transition starts. -/
def findTransitionLoop (l : AnimationLayer) (p : Parameters) :
    List Transition → AnimationLayer × Bool
  | [] => (l, false)
  | t :: rest =>
    if evaluate_transition t p then
      if containsKey l.states t.to_state then (startTransition l t, true)
      else (l, false)
    else findTransitionLoop l p rest

/-- AnimationLayer::check_transitions. -/
def AnimationLayer.check_transitions (l : AnimationLayer) (p : Parameters) :
    AnimationLayer × Bool :=
  match lookup l.transitions l.current_state with
  | none => (l, false)
  | some ts =>
      if l.is_transitioning then (l, false) else findTransitionLoop l p ts

/-- What AnimationLayer::update returns, together with whether the
cross-fade blending job (blend_states) was run this tick. -/
structure LayerUpdateResult where
  layer : AnimationLayer
  err : Option OzzError
  crossFadeRan : Bool
  deriving DecidableEq

/-- Transition-handling tail of AnimationLayer::update, entered when
next_state is set. The next state is updated with its error discarded
(the source binds it with a wildcard let); blend_states runs only when
both output pointers were obtained. -/
def updateTransition (l3 : AnimationLayer) (time : Time) (p : Parameters)
    (nextStateName : String) : LayerUpdateResult :=
  let l4 := { l3 with transition_time := l3.transition_time + time.delta_secs }
  if l4.transition_duration ≤ l4.transition_time then
    ⟨{ l4 with current_state := nextStateName
               next_state := none
               is_transitioning := false
               output_source_changed := true }, none, false⟩
  else
    let currentOut :=
      (lookup l4.states l4.current_state).map AnimationState.get_output_pointer
    match lookup l4.states nextStateName with
    | some st =>
        let st2 := (st.update time p).1
        let l5 := { l4 with states := updateKV l4.states nextStateName st2 }
        match currentOut with
        | some _ =>
            match l5.blendRunError with
            | some e => ⟨l5, some e, true⟩
            | none => ⟨l5, none, true⟩
        | none => ⟨l5, none, false⟩
    | none => ⟨l4, none, false⟩

/-- AnimationLayer::update. -/
def AnimationLayer.update (l0 : AnimationLayer) (time : Time)
    (p : Parameters) : LayerUpdateResult :=
  let was := l0.is_transitioning
  let l1 := (l0.check_transitions p).1
  let l2 :=
    if was ≠ l1.is_transitioning then { l1 with output_source_changed := true }
    else l1
  let cur := lookup l2.states l2.current_state
  let l3 :=
    match cur with
    | some st =>
        { l2 with states := updateKV l2.states l2.current_state (st.update time p).1 }
    | none => l2
  let ce : Option OzzError :=
    match cur with
    | some st => (st.update time p).2
    | none => none
  match ce with
  | some e => ⟨l3, some e, false⟩
  | none =>
    match l3.next_state with
    | none => ⟨l3, none, false⟩
    | some nextStateName => updateTransition l3 time p nextStateName

/-- AnimationLayer::get_output_pointer. -/
def AnimationLayer.get_output_pointer (l : AnimationLayer) : Nat :=
  if l.is_transitioning then l.outputId
  else
    match lookup l.states l.current_state with
    | some st => st.get_output_pointer
    | none => l.outputId

/-- BlendingLayer entry of the controller's final blending job. -/
structure FinalBlendLayer where
  transform : Nat
  weight : ℚ
  deriving DecidableEq

/-- AnimatorController (controller.rs). finalRunError is the outcome of
final_blending_job.run(); the local-to-model job and bone readout are pure
geometry on the job outputs and carry no claim-relevant state. -/
structure AnimatorController where
  layers : List AnimationLayer
  parameters : Parameters
  finalLayers : List FinalBlendLayer
  finalRunError : Option OzzError
  deriving DecidableEq

/-- Outcome of AnimatorController::build_blending_layers: the source
declares Result but its Additive arm executes the panic macro (the
error-returning line is commented out), so no error return exists. -/
inductive BuildOutcome where
  | ok (finalLayers : List FinalBlendLayer)
  | returnedError (e : OzzError)
  | panicked (msg : String)
  deriving DecidableEq

def additiveMsg : String := "Additive blending not yet implemented"

def oobMsg : String := "index out of bounds"

/-- Loop of build_blending_layers: both Override arms push identically
(the base_added flag changes nothing); Additive panics. -/
def buildLoop : List AnimationLayer → List FinalBlendLayer → BuildOutcome
  | [], acc => BuildOutcome.ok acc
  | layer :: rest, acc =>
    match layer.layer_blend_type with
    | LayerBlendType.override =>
        buildLoop rest
          (acc ++ [{ transform := layer.get_output_pointer,
                     weight := layer.layer_weight }])
    | LayerBlendType.additive => BuildOutcome.panicked additiveMsg

/-- AnimatorController::build_blending_layers. -/
def AnimatorController.build_blending_layers (c : AnimatorController) :
    BuildOutcome :=
  buildLoop c.layers []

/-- AnimatorController::new: builds the final blending layers and panics
through expect if that panics; otherwise the controller is returned. -/
def AnimatorController.new (layers : List AnimationLayer)
    (parameters : Parameters) : Option AnimatorController :=
  match buildLoop layers [] with
  | BuildOutcome.ok fl =>
      some { layers := layers, parameters := parameters, finalLayers := fl,
             finalRunError := none }
  | _ => none

/-- AnimatorController::add_layer: pushes onto the layer list only; the
final blending job's layer list is not rebuilt. -/
def AnimatorController.add_layer (c : AnimatorController)
    (layer : AnimationLayer) : AnimatorController :=
  { c with layers := c.layers ++ [layer] }

/-- State threaded through the per-layer loop of controller update. -/
structure CtrlLoopResult where
  layers : List AnimationLayer
  finalLayers : List FinalBlendLayer
  earlyExit : Option RunResult
  deriving DecidableEq

/-- Per-layer loop of AnimatorController::update: a layer error returns
early; a changed output source rebinds final_blending_job.layers[index],
panicking when that index does not exist. -/
def updateLayersLoop (time : Time) (p : Parameters) :
    List AnimationLayer → Nat → List FinalBlendLayer → List AnimationLayer →
    CtrlLoopResult
  | [], _, fl, acc => ⟨acc, fl, none⟩
  | layer :: rest, index, fl, acc =>
    let r := layer.update time p
    match r.err with
    | some e => ⟨acc ++ r.layer :: rest, fl, some (RunResult.error e)⟩
    | none =>
      if r.layer.output_source_changed then
        match fl[index]? with
        | none =>
            ⟨acc ++ r.layer :: rest, fl, some (RunResult.panicked oobMsg)⟩
        | some oldEntry =>
            let fl2 := fl.set index
              { oldEntry with transform := r.layer.get_output_pointer }
            let layer2 := { r.layer with output_source_changed := false }
            updateLayersLoop time p rest (index + 1) fl2 (acc ++ [layer2])
      else updateLayersLoop time p rest (index + 1) fl (acc ++ [r.layer])

/-- AnimatorController::update: run every layer, reset the triggers, run
the final blending job, then read out the bones (pure geometry, elided). -/
def AnimatorController.update (c : AnimatorController) (time : Time) :
    AnimatorController × RunResult :=
  let lr := updateLayersLoop time c.parameters c.layers 0 c.finalLayers []
  match lr.earlyExit with
  | some r => ({ c with layers := lr.layers, finalLayers := lr.finalLayers }, r)
  | none =>
    let p2 := c.parameters.reset_triggers
    let c2 := { c with layers := lr.layers, finalLayers := lr.finalLayers,
                       parameters := p2 }
    match c2.finalRunError with
    | some e => (c2, RunResult.error e)
    | none => (c2, RunResult.ok)

/-! Concrete fixtures used by witnesses and counterexamples. -/

def nameA : String := "A"

def nameB : String := "B"

def nameMissing : String := "M"

def nameGo : String := "go"

def nameAbsent : String := "speed"

/-- A simple state with no clip bound: its update is a no-op that succeeds. -/
def stateSimpleA : AnimationState := AnimationState.simple ⟨none, 0, none, 11⟩

def stateSimpleB : AnimationState := AnimationState.simple ⟨none, 0, none, 12⟩

/-- A simple state whose sampling job fails on every run. -/
def stateFailing : AnimationState :=
  AnimationState.simple ⟨some ⟨2⟩, 0, some OzzError.samplingFailed, 13⟩

def triggerGo : TransitionCondition := TransitionCondition.trigger nameGo

def paramsGo : Parameters := ⟨[], [], [], [(nameGo, true)]⟩

def tickTime : Time := ⟨1 / 60, 1 / 60⟩

/-- C1: transition to a state that is absent from the state map. -/
def c1ToMissing : Transition := ⟨nameMissing, 1, [triggerGo], false, 0⟩

/-- C1: later transition in the same list, to a state that does exist. -/
def c1ToB : Transition := ⟨nameB, 1, [triggerGo], false, 0⟩

def c1layer : AnimationLayer :=
  { name := nameA
    layer_blend_type := LayerBlendType.override
    layer_weight := 1
    default_state_name := nameA
    states := [(nameA, stateSimpleA), (nameB, stateSimpleB)]
    transitions := [(nameA, [c1ToMissing, c1ToB])]
    current_state := nameA
    next_state := none
    transition_time := 0
    transition_duration := 0
    is_transitioning := false
    blendRunError := none
    outputId := 1
    output_source_changed := false }

def c1okLayer : AnimationLayer :=
  { c1layer with transitions := [(nameA, [c1ToB])] }

/-- C2: two children with non-decreasing thresholds 0 and 1. -/
def c2motions : List MotionData :=
  [⟨MotionThreshold.simple1D 0, none⟩, ⟨MotionThreshold.simple1D 1, none⟩]

def c2weights : List ℚ := [0, 0]

/-- C3: a layer whose blend type is Additive. -/
def c3additiveLayer : AnimationLayer :=
  AnimationLayer.new nameA LayerBlendType.additive 1 41 nameA

def c3ctrl : AnimatorController := ⟨[c3additiveLayer], Parameters.new, [], none⟩

/-- C4: a layer mid cross-fade whose next state fails to sample. -/
def c4layer : AnimationLayer :=
  { c1layer with
      transitions := []
      states := [(nameA, stateSimpleA), (nameB, stateFailing)]
      next_state := some nameB
      is_transitioning := true
      transition_time := 0
      transition_duration := 10 }

/-- C4 witness and C5: a layer whose current state fails to sample. -/
def c4curFailLayer : AnimationLayer :=
  { c1layer with
      states := [(nameA, stateFailing)]
      transitions := [] }

/-- C4: a layer mid cross-fade whose cross-fade blending job fails. -/
def c4blendFailLayer : AnimationLayer :=
  { c1layer with
      transitions := []
      next_state := some nameB
      is_transitioning := true
      transition_time := 0
      transition_duration := 10
      blendRunError := some OzzError.blendFailed }

/-- C4: a controller whose single layer fails to sample. -/
def c4ctrl : AnimatorController := ⟨[c4curFailLayer], paramsGo, [⟨11, 1⟩], none⟩

def c5ctrl : AnimatorController := ⟨[c4curFailLayer], paramsGo, [⟨11, 1⟩], none⟩

/-- C5 witness: a controller whose single layer updates without error. -/
def c5okLayer : AnimationLayer :=
  { c1layer with
      states := [(nameA, stateSimpleA)]
      transitions := [] }

def c5okCtrl : AnimatorController := ⟨[c5okLayer], paramsGo, [⟨11, 1⟩], none⟩

/-- C6: a 1D blend tree keyed to a parameter the store does not hold. -/
def c6tree : BlendTree :=
  ⟨BlendTreeType.simple1D nameAbsent, c2motions, [1 / 2, 1 / 2], none, 51⟩

/-- C7: transition of duration zero, guarded by a trigger. -/
def c7ToB : Transition := ⟨nameB, 0, [triggerGo], false, 0⟩

def c7layer : AnimationLayer :=
  { c1layer with transitions := [(nameA, [c7ToB])] }

/-- C8: a sampling state bound to a 2-second clip. -/
def c8state : SimpleState := ⟨some ⟨2⟩, 0, none, 31⟩

def c8time : Time := ⟨1 / 2, 1 / 2⟩

/-- C9: a controller built with one Override layer. -/
def c9base : AnimationLayer :=
  { c1layer with transitions := [] }

def c9added : AnimationLayer :=
  AnimationLayer.new nameB LayerBlendType.override 1 22 nameB

def c9ctrl : AnimatorController :=
  ⟨[c9base], Parameters.new, [⟨11, 1⟩], none⟩

/-- C10 fixtures: transitioning layer, settled layer, layer with no states. -/
def c10transLayer : AnimationLayer :=
  { c1layer with transitions := [], is_transitioning := true }

def c10plainLayer : AnimationLayer :=
  { c1layer with transitions := [] }

def c10emptyLayer : AnimationLayer :=
  { c1layer with transitions := [], states := [] }

/-! Helper lemmas shared by the claim theorems. -/

theorem lookup_updateKV_self {α : Type} (m : List (String × α)) (k : String)
    (v : α) (h : (lookup m k).isSome) : lookup (updateKV m k v) k = some v := by
  induction m with
  | nil => simp [lookup] at h
  | cons kv m ih =>
    by_cases hk : kv.1 = k
    · simp [lookup, updateKV, hk]
    · simp only [lookup, updateKV, if_neg hk] at *
      exact ih h

theorem lookup_updateKV_ne {α : Type} (m : List (String × α)) (k q : String)
    (v : α) (h : q ≠ k) : lookup (updateKV m k v) q = lookup m q := by
  induction m with
  | nil => simp [lookup, updateKV]
  | cons kv m ih =>
    by_cases hk : kv.1 = k
    · have hq : ¬ kv.1 = q := by
        intro hq2
        exact h (hq2.symm.trans hk)
      simp [lookup, updateKV, hk, hq, ih, Ne.symm h]
    · by_cases hq : kv.1 = q
      · simp [lookup, updateKV, hk, hq, h]
      · simp [lookup, updateKV, hk, hq, ih]

theorem firstActiveError_none (ms : List MotionData) (ws : List ℚ)
    (h : ∀ m ∈ ms, m.childUpdateError = none) :
    firstActiveError ms ws = none := by
  induction ms generalizing ws with
  | nil => cases ws <;> simp [firstActiveError]
  | cons m ms ih =>
    cases ws with
    | nil => simp [firstActiveError]
    | cons w ws =>
      have hm := h m (by simp)
      have hrest : ∀ x ∈ ms, x.childUpdateError = none := by
        intro x hx
        exact h x (by simp [hx])
      by_cases hw : w = 0 <;> simp [firstActiveError, hw, hm, ih _ hrest]

theorem findTransitionLoop_eq (l : AnimationLayer) (p : Parameters)
    (ts : List Transition) :
    findTransitionLoop l p ts =
      match ts.find? (fun tr => evaluate_transition tr p) with
      | none => (l, false)
      | some t =>
          if containsKey l.states t.to_state then (startTransition l t, true)
          else (l, false) := by
  induction ts with
  | nil => simp [findTransitionLoop]
  | cons t rest ih =>
    by_cases h : evaluate_transition t p
    · rw [List.find?_cons_of_pos _ (by simpa using h)]
      simp [findTransitionLoop, h]
    · rw [List.find?_cons_of_neg _ (by simpa using h)]
      simp [findTransitionLoop, h, ih]

theorem check_transitions_of_transitioning (l : AnimationLayer)
    (p : Parameters) (h : l.is_transitioning = true) :
    l.check_transitions p = (l, false) := by
  unfold AnimationLayer.check_transitions
  cases hts : lookup l.transitions l.current_state <;> simp [h]

theorem check_preserves (l : AnimationLayer) (p : Parameters) :
    ((l.check_transitions p).1).states = l.states ∧
    ((l.check_transitions p).1).current_state = l.current_state ∧
    ((l.check_transitions p).1).blendRunError = l.blendRunError ∧
    ((l.check_transitions p).1).outputId = l.outputId := by
  unfold AnimationLayer.check_transitions
  cases hts : lookup l.transitions l.current_state with
  | none => simp
  | some ts =>
    by_cases hit : l.is_transitioning
    · simp [hit]
    · simp only [hit, if_false, Bool.false_eq_true, findTransitionLoop_eq]
      cases hf : ts.find? (fun tr => evaluate_transition tr p) with
      | none => simp
      | some t =>
          by_cases hc : containsKey l.states t.to_state <;>
            simp [hc, startTransition]

theorem check_fired (l : AnimationLayer) (p : Parameters)
    (l1 : AnimationLayer) (h : l.check_transitions p = (l1, true)) :
    l.is_transitioning = false ∧
    ∃ t : Transition, containsKey l.states t.to_state = true ∧
      l1 = startTransition l t := by
  unfold AnimationLayer.check_transitions at h
  cases hts : lookup l.transitions l.current_state with
  | none => rw [hts] at h; simp at h
  | some ts =>
    rw [hts] at h
    dsimp only at h
    by_cases hit : l.is_transitioning = true
    · simp [hit] at h
    · rw [if_neg hit, findTransitionLoop_eq] at h
      cases hf : ts.find? (fun tr => evaluate_transition tr p) with
      | none => rw [hf] at h; simp at h
      | some t =>
        rw [hf] at h
        dsimp only at h
        by_cases hc : containsKey l.states t.to_state = true
        · rw [if_pos hc] at h
          simp only [Prod.mk.injEq] at h
          exact ⟨by simpa using hit, t, hc, h.1.symm⟩
        · rw [if_neg hc] at h
          simp at h

/-- A layer that enters this tick mid cross-fade, whose current state
updates cleanly and whose next state exists, runs the cross-fade blend and
returns exactly the blending job's outcome as its error. -/
theorem layer_update_crossfade (l : AnimationLayer) (time : Time)
    (p : Parameters) (stC stN : AnimationState) (ns : String)
    (hit : l.is_transitioning = true) (hns : l.next_state = some ns)
    (hne : ns ≠ l.current_state)
    (hstC : lookup l.states l.current_state = some stC)
    (heC : (stC.update time p).2 = none)
    (hstN : lookup l.states ns = some stN)
    (hlt : l.transition_time + time.delta_secs < l.transition_duration) :
    (l.update time p).err = l.blendRunError ∧
    (l.update time p).crossFadeRan = true := by
  have hck := check_transitions_of_transitioning l p hit
  unfold AnimationLayer.update
  rw [hck]
  try dsimp only
  rw [if_neg (by simp)]
  simp only [hstC, heC]
  try dsimp only
  rw [hns]
  try dsimp only
  unfold updateTransition
  try dsimp only
  rw [if_neg (not_le.mpr hlt)]
  rw [lookup_updateKV_ne _ _ _ _ hne, hstN]
  try dsimp only
  rw [lookup_updateKV_self _ _ _ (by rw [hstC]; rfl)]
  try dsimp only
  cases hbr : l.blendRunError <;> simp [hbr]

/-- The per-layer loop of controller update propagates the first layer
error unchanged: if every layer before some layer succeeds (and the final
blend list is long enough for their rebinds), and that layer's update
returns an error, the loop exits early with exactly that error. -/
theorem updateLayersLoop_first_error (time : Time) (p : Parameters)
    (e : OzzError) :
    ∀ (pre : List AnimationLayer) (l : AnimationLayer)
      (post : List AnimationLayer) (index : Nat)
      (fl : List FinalBlendLayer) (acc : List AnimationLayer),
      (∀ x ∈ pre, (x.update time p).err = none) →
      index + pre.length ≤ fl.length →
      (l.update time p).err = some e →
      (updateLayersLoop time p (pre ++ l :: post) index fl acc).earlyExit =
        some (RunResult.error e) := by
  intro pre
  induction pre with
  | nil =>
    intro l post index fl acc _ _ herr
    simp [updateLayersLoop, herr]
  | cons x pre ih =>
    intro l post index fl acc hpre hlen herr
    have hx : (x.update time p).err = none := hpre x (by simp)
    have hpre2 : ∀ y ∈ pre, (y.update time p).err = none := by
      intro y hy
      exact hpre y (by simp [hy])
    simp only [List.cons_append, updateLayersLoop]
    rw [hx]
    try dsimp only
    by_cases hosc : ((x.update time p).layer.output_source_changed) = true
    · rw [if_pos hosc]
      have hidx : index < fl.length := by
        simp only [List.length_cons] at hlen
        omega
      obtain ⟨entry, hentry⟩ : ∃ entry, fl[index]? = some entry :=
        ⟨fl[index], List.getElem?_eq_getElem hidx⟩
      rw [hentry]
      try dsimp only
      apply ih _ _ _ _ _ hpre2 _ herr
      simp only [List.length_set, List.length_cons] at *
      omega
    · rw [if_neg hosc]
      apply ih _ _ _ _ _ hpre2 _ herr
      simp only [List.length_cons] at hlen
      omega

/-! Claim theorems. -/

/-- C1 counterexample: both transitions out of the current state are
satisfied; the first names a missing state and the second an existing one,
yet check_transitions starts nothing and leaves the layer unchanged —
the later transition is not considered. -/
theorem c1_counterexample :
    evaluate_transition c1ToMissing paramsGo = true ∧
    evaluate_transition c1ToB paramsGo = true ∧
    containsKey c1layer.states c1ToMissing.to_state = false ∧
    containsKey c1layer.states c1ToB.to_state = true ∧
    c1layer.check_transitions paramsGo = (c1layer, false) := by
  decide

/-- C1 (corrected): when the layer is not transitioning, the walk starts
the first condition-satisfying transition of the current state's list iff
its target exists in the state map; when that target is missing, the walk
stops with no transition started, ignoring all later transitions. -/
theorem c1_transition_scan (l : AnimationLayer) (p : Parameters)
    (ts : List Transition) (t : Transition)
    (hts : lookup l.transitions l.current_state = some ts)
    (hnt : l.is_transitioning = false)
    (hfind : ts.find? (fun tr => evaluate_transition tr p) = some t) :
    (containsKey l.states t.to_state = true →
      l.check_transitions p = (startTransition l t, true)) ∧
    (containsKey l.states t.to_state = false →
      l.check_transitions p = (l, false)) := by
  unfold AnimationLayer.check_transitions
  rw [hts]
  simp only [hnt, if_false, Bool.false_eq_true, findTransitionLoop_eq, hfind]
  constructor <;> intro h <;> simp [h]

/-- C1 witness: a single satisfied transition with an existing target is
started by check_transitions. -/
theorem c1_transition_scan_witness :
    c1okLayer.check_transitions paramsGo =
      (startTransition c1okLayer c1ToB, true) :=
  (c1_transition_scan c1okLayer paramsGo [c1ToB] c1ToB (by decide) (by decide)
    (by decide)).1 (by decide)

/-- C2 (code_bug): with thresholds 0 ≤ 1 and parameter value 2 above the
last threshold, the 1D weight pass leaves the weights at [0, 0]; the last
child does not get weight 1 because the upper-edge branch of
calculate_weights_1d hides behind an else that never runs for 1D data. -/
theorem c2_upper_edge_bug :
    (1 : ℚ) ≤ 2 ∧
    calculate_weights_1d c2motions c2weights 2 = c2weights ∧
    (calculate_weights_1d c2motions c2weights 2).getLast? = some 0 := by
  decide

/-- C3 (code_bug): building the final blending layers over an Additive
layer panics with a fixed message instead of returning an error, and
controller construction with such a layer propagates the panic. -/
theorem c3_additive_panics :
    c3ctrl.build_blending_layers = BuildOutcome.panicked additiveMsg ∧
    AnimatorController.new [c3additiveLayer] Parameters.new = none := by
  decide

/-- C4 counterexample: the next state's update fails mid cross-fade, yet
the layer update returns no error and still runs the cross-fade blend. -/
theorem c4_counterexample :
    (AnimationState.update stateFailing tickTime paramsGo).2 =
      some OzzError.samplingFailed ∧
    lookup c4layer.states nameB = some stateFailing ∧
    c4layer.next_state = some nameB ∧
    (c4layer.update tickTime paramsGo).err = none ∧
    (c4layer.update tickTime paramsGo).crossFadeRan = true := by
  refine ⟨by decide, by decide, by decide, ?_, ?_⟩
  all_goals
    have hAB : ("A" : String) ≠ ("B" : String) := by decide
    have hBA : ("B" : String) ≠ ("A" : String) := by decide
    norm_num [AnimationLayer.update, AnimationLayer.check_transitions,
      updateTransition, lookup, updateKV, containsKey,
      AnimationState.update, SimpleState.update, rustRem,
      c4layer, c1layer, stateFailing, stateSimpleA, stateSimpleB,
      tickTime, paramsGo, nameA, nameB, nameGo, hAB, hBA]

/-- C4 (corrected): per-tick errors from the current state's update and
from the cross-fade blending job bubble out of the layer update unchanged,
and a layer update error bubbles unchanged out of the controller update;
but an error raised while updating the next state during an in-progress
cross-fade is discarded: the update still runs the cross-fade and returns
no error. -/
theorem c4_error_policy :
    (∀ (l : AnimationLayer) (time : Time) (p : Parameters)
      (st : AnimationState) (e : OzzError),
      lookup l.states l.current_state = some st →
      (st.update time p).2 = some e →
      (l.update time p).err = some e) ∧
    (∀ (l : AnimationLayer) (time : Time) (p : Parameters)
      (stC stN : AnimationState) (ns : String) (e : OzzError),
      l.is_transitioning = true → l.next_state = some ns →
      ns ≠ l.current_state →
      lookup l.states l.current_state = some stC →
      (stC.update time p).2 = none →
      lookup l.states ns = some stN →
      l.transition_time + time.delta_secs < l.transition_duration →
      l.blendRunError = some e →
      (l.update time p).err = some e ∧
      (l.update time p).crossFadeRan = true) ∧
    (∀ (l : AnimationLayer) (time : Time) (p : Parameters)
      (stC stN : AnimationState) (ns : String),
      l.is_transitioning = true → l.next_state = some ns →
      ns ≠ l.current_state →
      lookup l.states l.current_state = some stC →
      (stC.update time p).2 = none →
      lookup l.states ns = some stN →
      l.transition_time + time.delta_secs < l.transition_duration →
      l.blendRunError = none →
      (l.update time p).err = none ∧
      (l.update time p).crossFadeRan = true) ∧
    (∀ (c : AnimatorController) (time : Time)
      (pre : List AnimationLayer) (l : AnimationLayer)
      (post : List AnimationLayer) (e : OzzError),
      c.layers = pre ++ l :: post →
      (∀ x ∈ pre, (x.update time c.parameters).err = none) →
      pre.length ≤ c.finalLayers.length →
      (l.update time c.parameters).err = some e →
      (c.update time).2 = RunResult.error e) := by
  refine ⟨?_, ?_, ?_, ?_⟩
  · intro l time p st e hst he
    obtain ⟨hs, hc, _, _⟩ := check_preserves l p
    unfold AnimationLayer.update
    try dsimp only
    by_cases hchg :
        l.is_transitioning ≠ ((l.check_transitions p).1).is_transitioning
    · rw [if_pos hchg]
      try dsimp only
      simp only [hs, hc, hst, he]
    · rw [if_neg hchg]
      simp only [hs, hc, hst, he]
  · intro l time p stC stN ns e hit hns hne hstC heC hstN hlt hbr
    have h := layer_update_crossfade l time p stC stN ns hit hns hne hstC
      heC hstN hlt
    exact ⟨h.1.trans hbr, h.2⟩
  · intro l time p stC stN ns hit hns hne hstC heC hstN hlt hbr
    have h := layer_update_crossfade l time p stC stN ns hit hns hne hstC
      heC hstN hlt
    exact ⟨h.1.trans hbr, h.2⟩
  · intro c time pre l post e hdecomp hpre hlen herr
    have hloop := updateLayersLoop_first_error time c.parameters e pre l
      post 0 c.finalLayers [] hpre (by omega) herr
    unfold AnimatorController.update
    rw [hdecomp]
    simp only [hloop]

/-- C4 witness: the general policy evaluated on concrete layers and a
concrete controller — a failing current state propagates its error, a
failing cross-fade blend propagates its error, a failing next state mid
cross-fade is discarded while the cross-fade still runs, and the layer
error surfaces from the controller update. -/
theorem c4_error_policy_witness :
    (c4curFailLayer.update tickTime paramsGo).err =
      some OzzError.samplingFailed ∧
    ((c4blendFailLayer.update tickTime paramsGo).err =
        some OzzError.blendFailed ∧
      (c4blendFailLayer.update tickTime paramsGo).crossFadeRan = true) ∧
    ((c4layer.update tickTime paramsGo).err = none ∧
      (c4layer.update tickTime paramsGo).crossFadeRan = true) ∧
    (c4ctrl.update tickTime).2 = RunResult.error OzzError.samplingFailed :=
  ⟨c4_error_policy.1 c4curFailLayer tickTime paramsGo stateFailing
      OzzError.samplingFailed (by decide) (by decide),
   c4_error_policy.2.1 c4blendFailLayer tickTime paramsGo stateSimpleA
      stateSimpleB nameB OzzError.blendFailed (by decide) (by decide)
      (by decide) (by decide) (by decide) (by decide)
      (by norm_num [c4blendFailLayer, c1layer, tickTime]) (by decide),
   c4_error_policy.2.2.1 c4layer tickTime paramsGo stateSimpleA stateFailing
      nameB (by decide) (by decide) (by decide) (by decide) (by decide)
      (by decide) (by norm_num [c4layer, c1layer, tickTime]) (by decide),
   c4_error_policy.2.2.2 c4ctrl tickTime [] c4curFailLayer []
      OzzError.samplingFailed rfl (by simp) (by decide) (by decide)⟩

/-- C7 (confirmed): a transition of duration zero fired by this tick's
check completes within the same update for any dt ≥ 0 whenever the current
state's own update succeeds: current becomes the target, next and
is_transitioning are cleared, the output-source flag is set, no error is
returned and the cross-fade blending job does not run. -/
theorem c7_zero_duration_transition (l : AnimationLayer) (p : Parameters)
    (time : Time) (l1 : AnimationLayer) (ns : String)
    (hfire : l.check_transitions p = (l1, true))
    (hns : l1.next_state = some ns)
    (hdur : l1.transition_duration = 0)
    (hdt : 0 ≤ time.delta_secs)
    (hcur : (match lookup l.states l.current_state with
      | some st => (st.update time p).2
      | none => (none : Option OzzError)) = none) :
    (l.update time p).layer.current_state = ns ∧
    (l.update time p).layer.next_state = none ∧
    (l.update time p).layer.is_transitioning = false ∧
    (l.update time p).layer.output_source_changed = true ∧
    (l.update time p).err = none ∧
    (l.update time p).crossFadeRan = false := by
  obtain ⟨hit, t, hc, hl1⟩ := check_fired l p l1 hfire
  subst hl1
  simp only [startTransition, Option.some.injEq] at hns hdur
  unfold AnimationLayer.update
  rw [hfire]
  dsimp only
  cases hl : lookup l.states l.current_state with
  | none =>
      simp [startTransition, updateTransition, hit, hdur, hdt, hl, hns]
  | some st =>
      rw [hl] at hcur
      try dsimp only at hcur
      simp [startTransition, updateTransition, hit, hdur, hdt, hl, hns, hcur]

/-- C7 witness: the duration-zero trigger transition of a concrete layer
completes in the tick it fires. -/
theorem c7_witness :
    (c7layer.update tickTime paramsGo).layer.current_state = nameB ∧
    (c7layer.update tickTime paramsGo).layer.next_state = none ∧
    (c7layer.update tickTime paramsGo).layer.is_transitioning = false ∧
    (c7layer.update tickTime paramsGo).layer.output_source_changed = true ∧
    (c7layer.update tickTime paramsGo).err = none ∧
    (c7layer.update tickTime paramsGo).crossFadeRan = false :=
  c7_zero_duration_transition c7layer paramsGo tickTime
    (startTransition c7layer c7ToB) nameB (by decide) (by decide) (by decide)
    (by norm_num [tickTime]) (by decide)

/-- C5 counterexample: a layer update error makes controller update return
early with that error, before reset_triggers runs, so a trigger set before
the tick still reads true after update returns. -/
theorem c5_counterexample :
    (c5ctrl.update tickTime).2 = RunResult.error OzzError.samplingFailed ∧
    ((c5ctrl.update tickTime).1).parameters.get_trigger nameGo = true := by
  decide

/-- C5 (corrected): whenever the per-layer loop of controller update
completes without an early return, reset_triggers runs before update
returns, so every trigger reads false afterwards, even when the final
blending job then fails. -/
theorem c5_triggers_cleared (c : AnimatorController) (time : Time)
    (n : String)
    (h : (updateLayersLoop time c.parameters c.layers 0
      c.finalLayers []).earlyExit = none) :
    ((c.update time).1).parameters.get_trigger n = false := by
  unfold AnimatorController.update
  simp only [h]
  cases c.finalRunError <;>
    simp [Parameters.reset_triggers, Parameters.get_trigger, lookup]

/-- C5 witness: on a controller whose single layer updates cleanly, the
trigger set before the tick reads false after update. -/
theorem c5_triggers_cleared_witness :
    ((c5okCtrl.update tickTime).1).parameters.get_trigger nameGo = false :=
  c5_triggers_cleared c5okCtrl tickTime nameGo (by decide)

/-- C8 (confirmed): for a bound clip of positive duration and nonnegative
elapsed time, the ratio written by SimpleState::update equals
(elapsed mod duration) / duration with the mathematical mod. -/
theorem c8_sampling_ratio (s : SimpleState) (time : Time) (a : Animation)
    (ha : s.animation = some a) (hd : 0 < a.duration)
    (ht : 0 ≤ time.elapsed_secs) :
    ((s.update time).1).ratio_value =
      (time.elapsed_secs -
        a.duration * ((⌊time.elapsed_secs / a.duration⌋ : ℤ) : ℚ)) /
        a.duration := by
  have hq : 0 ≤ time.elapsed_secs / a.duration := div_nonneg ht (le_of_lt hd)
  simp [SimpleState.update, ha, rustRem, hq]

/-- C8 witness: a 2-second clip sampled at elapsed time 0.5 yields the
ratio 0.25. -/
theorem c8_sampling_ratio_witness :
    ((c8state.update c8time).1).ratio_value = 1 / 4 := by
  have h := c8_sampling_ratio c8state c8time ⟨2⟩ rfl (by norm_num)
    (by norm_num [c8time])
  rw [h]
  have hf : ⌊c8time.elapsed_secs / (Animation.mk 2).duration⌋ = 0 := by
    apply Int.floor_eq_zero_iff.mpr
    norm_num [c8time, Set.mem_Ico]
  rw [hf]
  norm_num [c8time]

/-- C10 (confirmed): get_output_pointer is a total function; it yields the
layer's own cross-fade buffer while transitioning, the current state's
output buffer when the state exists, and falls back to the layer's own
buffer when the current state name is absent from the state map. -/
theorem c10_get_output_pointer_total (l : AnimationLayer) :
    (l.is_transitioning = true → l.get_output_pointer = l.outputId) ∧
    (l.is_transitioning = false →
      ∀ st, lookup l.states l.current_state = some st →
        l.get_output_pointer = st.get_output_pointer) ∧
    (l.is_transitioning = false →
      lookup l.states l.current_state = none →
        l.get_output_pointer = l.outputId) := by
  refine ⟨fun h => ?_, fun h st hst => ?_, fun h hn => ?_⟩ <;>
    simp [AnimationLayer.get_output_pointer, h, *]

/-- C10 witness: the three cases evaluated on concrete layers. -/
theorem c10_witness :
    c10transLayer.get_output_pointer = c10transLayer.outputId ∧
    c10plainLayer.get_output_pointer = stateSimpleA.get_output_pointer ∧
    c10emptyLayer.get_output_pointer = c10emptyLayer.outputId :=
  ⟨(c10_get_output_pointer_total c10transLayer).1 (by decide),
   (c10_get_output_pointer_total c10plainLayer).2.1 (by decide) stateSimpleA
     (by decide),
   (c10_get_output_pointer_total c10emptyLayer).2.2 (by decide) (by decide)⟩

/-- C9 (code_bug): a controller built with one Override layer, to which a
second layer is added after construction, panics with an index
out-of-bounds on its next update instead of processing both layers. -/
theorem c9_add_layer_oob :
    AnimatorController.new [c9base] Parameters.new = some c9ctrl ∧
    ((c9ctrl.add_layer c9added).update tickTime).2 =
      RunResult.panicked oobMsg := by
  decide

/-- C6 (confirmed): a missing parameter is never fatal. Every transition
condition kind over an absent parameter evaluates false; a blend tree
whose blend parameter (either one, for 2D) is absent keeps its previous
weights for the tick; and the update reports no error when the children
and the blend job succeed. -/
theorem c6_missing_param_never_fatal (p : Parameters) (n : String)
    (time : Time) :
    (∀ v, p.get_bool n = none →
      evaluate_condition (TransitionCondition.bool n v) p = false) ∧
    (∀ v cmp, p.get_float n = none →
      evaluate_condition (TransitionCondition.float n v cmp) p = false) ∧
    (∀ v cmp, p.get_int n = none →
      evaluate_condition (TransitionCondition.int n v cmp) p = false) ∧
    (lookup p.triggers n = none →
      evaluate_condition (TransitionCondition.trigger n) p = false) ∧
    (∀ bt : BlendTree, bt.blend_type = BlendTreeType.simple1D n →
      p.get_float n = none → ((bt.update time p).1).weights = bt.weights) ∧
    (∀ (bt : BlendTree) (ny : String),
      bt.blend_type = BlendTreeType.directional2D n ny →
      p.get_float n = none → ((bt.update time p).1).weights = bt.weights) ∧
    (∀ (bt : BlendTree) (nx : String),
      bt.blend_type = BlendTreeType.directional2D nx n →
      p.get_float n = none → ((bt.update time p).1).weights = bt.weights) ∧
    (∀ bt : BlendTree, (∀ m ∈ bt.motions, m.childUpdateError = none) →
      bt.runError = none → (bt.update time p).2 = none) := by
  refine ⟨fun v h => ?_, fun v cmp h => ?_, fun v cmp h => ?_, fun h => ?_,
    fun bt hb h => ?_, fun bt ny hb h => ?_, fun bt nx hb h => ?_,
    fun bt hm hr => ?_⟩
  · simp [evaluate_condition, h]
  · simp [evaluate_condition, h]
  · simp [evaluate_condition, h]
  · simp [evaluate_condition, Parameters.get_trigger, h]
  · unfold BlendTree.update
    rw [hb]
    dsimp only
    rw [h]
    cases hfa : firstActiveError bt.motions bt.weights <;>
      cases hbr : bt.runError <;> simp [hfa, hbr]
  · unfold BlendTree.update
    rw [hb]
    dsimp only
    rw [h]
    cases hy : p.get_float ny <;>
      cases hfa : firstActiveError bt.motions bt.weights <;>
        cases hbr : bt.runError <;> simp [hy, hfa, hbr]
  · unfold BlendTree.update
    rw [hb]
    dsimp only
    rw [h]
    cases hx : p.get_float nx <;>
      cases hfa : firstActiveError bt.motions bt.weights <;>
        cases hbr : bt.runError <;> simp [hx, hfa, hbr]
  · have hfa : ∀ ws, firstActiveError bt.motions ws = none :=
      fun ws => firstActiveError_none _ _ hm
    simp [BlendTree.update, hfa, hr]

/-- C6 witness: with the blend parameter absent from the store, a concrete
tree keeps its weights and updates without error, and a bool condition
over the absent name evaluates false. -/
theorem c6_witness :
    evaluate_condition (TransitionCondition.bool nameAbsent true)
      paramsGo = false ∧
    ((c6tree.update tickTime paramsGo).1).weights = c6tree.weights ∧
    (c6tree.update tickTime paramsGo).2 = none := by
  have h := c6_missing_param_never_fatal paramsGo nameAbsent tickTime
  exact ⟨h.1 true (by decide),
    h.2.2.2.2.1 c6tree (by decide) (by decide),
    h.2.2.2.2.2.2.2 c6tree (by decide) (by decide)⟩

end AnimatorModel
